import Mathlib

/-!
Verification development for the immersive-op tracking pipeline.

The definitions below are shallow embeddings of the JavaScript sources:
`src/utils/math.js`, `src/tracking/face-tracker.js`, `src/tracking/gyroscope.js`,
`src/tracking/fallback.js`, `src/core/camera.js` and the arbitration logic in
`src/main.js`.  JavaScript numbers that the code manipulates exactly are modelled
as rationals; the camera smoothing exponent `(1-s)^(dt/16.67)` is genuinely
real-valued and is modelled over the reals.
-/

/- Embedding of `src/utils/math.js`: the four helpers the tracking code uses. -/
namespace MathUtils

/-- `lerp(start, end, t) = start + (end - start) * t`. -/
def lerp {α : Type} [LinearOrderedField α] (s e t : α) : α :=
  s + (e - s) * t

/-- `clamp(value, min, max) = Math.min(Math.max(value, min), max)`. -/
def clamp {α : Type} [LinearOrderedField α] (value lo hi : α) : α :=
  min (max value lo) hi

/-- `normalize(value, min, max)`: returns `0` when the range is degenerate,
otherwise `(value - min) / (max - min)`. -/
def normalize {α : Type} [LinearOrderedField α] [DecidableEq α] (value lo hi : α) : α :=
  if hi = lo then 0 else (value - lo) / (hi - lo)

/-- `mapRange(value, inMin, inMax, outMin, outMax)`. -/
def mapRange {α : Type} [LinearOrderedField α] [DecidableEq α] (value lo hi a b : α) : α :=
  a + (b - a) * normalize value lo hi

end MathUtils

open MathUtils

/-- A plain 3-component vector, the `{x, y, z}` offset objects of the sources. -/
@[ext]
structure Vec3 (α : Type) where
  x : α
  y : α
  z : α
deriving DecidableEq, Repr

/-- Squared Euclidean magnitude of an offset, used to compare offset magnitudes. -/
def Vec3.normSq (v : Vec3 ℚ) : ℚ :=
  v.x ^ 2 + v.y ^ 2 + v.z ^ 2

/-- The tracking-relevant fields of `DEFAULT_CONFIG` in `src/config.js`,
with decimal literals written as exact rationals. -/
structure Config where
  cameraDistance : ℚ
  maxCameraOffset : Vec3 ℚ
  trackingSensitivity : ℚ
  smoothingFactor : ℚ
  faceDetectionFPS : ℚ
  cameraRequestDelay : ℚ
  fallbackAnimationSpeed : ℚ
  fallbackAnimationRadius : ℚ × ℚ
  gyroMaxTilt : ℚ
  gyroSensitivity : ℚ
deriving DecidableEq, Repr

/-- `DEFAULT_CONFIG` from `src/config.js` (tracking-relevant fields). -/
def DEFAULT_CONFIG : Config where
  cameraDistance := 6
  maxCameraOffset := ⟨5/2, 7/5, 3/2⟩
  trackingSensitivity := 8/10
  smoothingFactor := 6/100
  faceDetectionFPS := 20
  cameraRequestDelay := 1000
  fallbackAnimationSpeed := 3/10000
  fallbackAnimationRadius := (4/10, 25/100)
  gyroMaxTilt := 30
  gyroSensitivity := 1

/-- One bounding-box detection as delivered to `FaceTracker.handleResults`. -/
structure Detection where
  xCenter : ℚ
  yCenter : ℚ
  width : ℚ
  height : ℚ
deriving DecidableEq, Repr

/-- The hidden `<video>` element of the face tracker: whether it still holds a
media stream (`srcObject`) and whether it is attached to the DOM (`parentNode`). -/
structure VideoElem where
  srcObject : Bool
  inDom : Bool
deriving DecidableEq, Repr

/-- Mutable fields of the `FaceTracker` class (`src/tracking/face-tracker.js`). -/
structure FaceTrackerState where
  isRunning : Bool
  isInitialized : Bool
  detectionInterval : Bool
  video : Option VideoElem
  previewInDom : Bool
  baseFaceSize : Option ℚ
  smoothedPosition : Vec3 ℚ
deriving DecidableEq, Repr

/-- The raw horizontal offset of a detection: `mapRange(centerX, 0, 1, 1, -1)`. -/
def faceRawX (cx : ℚ) : ℚ :=
  mapRange cx 0 1 1 (-1)

/-- The raw vertical offset of a detection: `mapRange(centerY, 0, 1, 1, -1)`. -/
def faceRawY (cy : ℚ) : ℚ :=
  mapRange cy 0 1 1 (-1)

/-- The raw depth offset from a size ratio:
`clamp(mapRange(sizeRatio, 0.6, 1.6, 1, -1), -1, 1)`. -/
def faceRawZ (sizeRatio : ℚ) : ℚ :=
  clamp (mapRange sizeRatio (6/10) (16/10) 1 (-1)) (-1) 1

/-- `FaceTracker.handleResults`: processes one detection-tick result list and
returns the new tracker state together with the offset passed to `onUpdate`.
With no detection every axis of the smoothed position is multiplied by `0.92`;
with a detection the raw offsets are low-pass filtered with coefficient `0.15`,
the calibration baseline being recorded on the first detection. -/
def FaceTracker.handleResults (st : FaceTrackerState) (detections : List Detection) :
    FaceTrackerState × Vec3 ℚ :=
  match detections with
  | [] =>
    let p := st.smoothedPosition
    let p2 : Vec3 ℚ := ⟨p.x * (92/100), p.y * (92/100), p.z * (92/100)⟩
    ({ st with smoothedPosition := p2 }, p2)
  | d :: _ =>
    let faceSize := d.width * d.height
    let base := st.baseFaceSize.getD faceSize
    let rawX := faceRawX d.xCenter
    let rawY := faceRawY d.yCenter
    let sizeRatio := faceSize / base
    let rawZ := faceRawZ sizeRatio
    let smooth : ℚ := 15/100
    let p := st.smoothedPosition
    let p2 : Vec3 ℚ :=
      ⟨p.x + (rawX - p.x) * smooth, p.y + (rawY - p.y) * smooth, p.z + (rawZ - p.z) * smooth⟩
    ({ st with baseFaceSize := some base, smoothedPosition := p2 }, p2)

/-- A zero offset vector over the rationals. -/
def Vec3.zeroQ : Vec3 ℚ := ⟨0, 0, 0⟩

lemma faceRawZ_eval (r : ℚ) :
    faceRawZ r = clamp (mapRange r (6/10) (16/10) 1 (-1)) (-1) 1 := rfl

/-- C3: for every detection centroid `(cx, cy)` in the unit square, the raw
planar offsets the face estimator computes before smoothing are
`offsetX = 1 - 2*cx` and `offsetY = 1 - 2*cy` (horizontal axis inverted
relative to the video image). -/
theorem face_planar_mapping (cx cy : ℚ)
    (hx0 : 0 ≤ cx) (hx1 : cx ≤ 1) (hy0 : 0 ≤ cy) (hy1 : cy ≤ 1) :
    faceRawX cx = 1 - 2 * cx ∧ faceRawY cy = 1 - 2 * cy := by
  constructor <;>
    · simp [faceRawX, faceRawY, mapRange, MathUtils.normalize]
      ring

/-- Witness for `face_planar_mapping` at the centroid `(1/4, 3/4)`. -/
theorem face_planar_mapping_witness :
    faceRawX (1/4) = 1 - 2 * (1/4) ∧ faceRawY (3/4) = 1 - 2 * (3/4) :=
  face_planar_mapping (1/4) (3/4) (by norm_num) (by norm_num) (by norm_num) (by norm_num)

/-- C2 (counterexample): a face whose apparent size equals the calibration
baseline (`ratio = 1`) yields a raw depth offset of `1/5 = 0.2`, not `0`
as the claim states. -/
theorem faceRawZ_at_baseline_ne_zero :
    faceRawZ 1 = 1/5 ∧ faceRawZ 1 ≠ 0 := by
  constructor <;>
    norm_num [faceRawZ, clamp, mapRange, MathUtils.normalize, min_def, max_def]

/-- C2 (amended): with a recorded calibration baseline `b`, the raw depth
offset before smoothing is `clamp(mapRange(ratio, 0.6, 1.6, 1, -1), -1, 1)`
with `ratio = size / b`; `ratio = 1.6` maps to `-1`, `ratio = 0.6` to `1`,
the interval midpoint `ratio = 1.1` to `0`, and `ratio = 1` to `0.2`. -/
theorem face_depth_mapping (st : FaceTrackerState) (d : Detection) (b : ℚ)
    (hb : st.baseFaceSize = some b) :
    ((FaceTracker.handleResults st [d]).2).z
        = st.smoothedPosition.z
          + (faceRawZ (d.width * d.height / b) - st.smoothedPosition.z) * (15/100)
      ∧ (∀ r : ℚ, faceRawZ r = clamp (mapRange r (6/10) (16/10) 1 (-1)) (-1) 1)
      ∧ faceRawZ (16/10) = -1 ∧ faceRawZ (6/10) = 1
      ∧ faceRawZ (11/10) = 0 ∧ faceRawZ 1 = 1/5 := by
  refine ⟨?_, fun r => rfl, ?_, ?_, ?_, ?_⟩
  · simp [FaceTracker.handleResults, hb]
  all_goals
    norm_num [faceRawZ, clamp, mapRange, MathUtils.normalize, min_def, max_def]

/-- Witness for `face_depth_mapping` with a concrete calibrated state and a
detection of twice the baseline area. -/
theorem face_depth_mapping_witness :
    ((FaceTracker.handleResults
        ⟨true, true, true, some ⟨true, true⟩, true, some (1/8), ⟨0, 0, 1/2⟩⟩
        [⟨1/2, 1/2, 1/2, 1/2⟩]).2).z
        = (1/2 : ℚ) + (faceRawZ ((1/2) * (1/2) / (1/8)) - 1/2) * (15/100)
      ∧ (∀ r : ℚ, faceRawZ r = clamp (mapRange r (6/10) (16/10) 1 (-1)) (-1) 1)
      ∧ faceRawZ (16/10) = -1 ∧ faceRawZ (6/10) = 1
      ∧ faceRawZ (11/10) = 0 ∧ faceRawZ 1 = 1/5 :=
  face_depth_mapping ⟨true, true, true, some ⟨true, true⟩, true, some (1/8), ⟨0, 0, 1/2⟩⟩
    ⟨1/2, 1/2, 1/2, 1/2⟩ (1/8) rfl

/-- C7: on a detection tick with zero detections, every axis of the smoothed
position is multiplied by the decay factor `0.92`; from a nonzero position the
emitted offset magnitude strictly decreases and the emitted offset is still
nonzero (no jump to exactly zero in one step). -/
theorem face_detection_loss_decay (st : FaceTrackerState)
    (hnz : st.smoothedPosition ≠ Vec3.zeroQ) :
    (FaceTracker.handleResults st []).2
        = ⟨st.smoothedPosition.x * (92/100),
           st.smoothedPosition.y * (92/100),
           st.smoothedPosition.z * (92/100)⟩
      ∧ ((FaceTracker.handleResults st []).1).smoothedPosition
          = (FaceTracker.handleResults st []).2
      ∧ ((FaceTracker.handleResults st []).2).normSq < st.smoothedPosition.normSq
      ∧ (FaceTracker.handleResults st []).2 ≠ Vec3.zeroQ := by
  obtain ⟨r1, r2, r3, r4, r5, r6, px, py, pz⟩ := st
  simp only [Vec3.zeroQ, ne_eq, Vec3.mk.injEq, not_and] at hnz
  have h : px ≠ 0 ∨ py ≠ 0 ∨ pz ≠ 0 := by
    by_contra h
    push_neg at h
    exact hnz h.1 h.2.1 h.2.2
  have hpos : (0 : ℚ) < px ^ 2 + py ^ 2 + pz ^ 2 := by
    rcases h with h | h | h <;> positivity
  refine ⟨rfl, rfl, ?_, ?_⟩
  · simp only [FaceTracker.handleResults, Vec3.normSq]
    nlinarith [hpos]
  · simp only [FaceTracker.handleResults, Vec3.zeroQ, ne_eq, Vec3.mk.injEq,
      mul_eq_zero, not_and]
    norm_num
    intro h1 h2 h3
    exact hnz h1 h2 h3

/-- Witness for `face_detection_loss_decay` from the position `(1/2, 0, -1/4)`. -/
theorem face_detection_loss_decay_witness :
    (FaceTracker.handleResults
        ⟨true, true, true, none, false, none, ⟨1/2, 0, -1/4⟩⟩ []).2
        = ⟨(1/2 : ℚ) * (92/100), (0 : ℚ) * (92/100), (-1/4 : ℚ) * (92/100)⟩
      ∧ ((FaceTracker.handleResults
            ⟨true, true, true, none, false, none, ⟨1/2, 0, -1/4⟩⟩ []).1).smoothedPosition
          = (FaceTracker.handleResults
              ⟨true, true, true, none, false, none, ⟨1/2, 0, -1/4⟩⟩ []).2
      ∧ ((FaceTracker.handleResults
            ⟨true, true, true, none, false, none, ⟨1/2, 0, -1/4⟩⟩ []).2).normSq
          < (Vec3.normSq ⟨1/2, 0, -1/4⟩)
      ∧ (FaceTracker.handleResults
            ⟨true, true, true, none, false, none, ⟨1/2, 0, -1/4⟩⟩ []).2 ≠ Vec3.zeroQ :=
  face_detection_loss_decay ⟨true, true, true, none, false, none, ⟨1/2, 0, -1/4⟩⟩
    (by simp [Vec3.zeroQ])

/- Embedding of `src/tracking/gyroscope.js`.  A `deviceorientation` angle is
either `null`, `NaN`, or an ordinary number; the handler's guard
`beta === null || gamma === null` only filters `null`, so the arithmetic after
the guard must propagate `NaN`, which we model by `Option ℚ` with `none` for
`NaN`. -/

/-- A `DeviceOrientationEvent` angle field: `null`, `NaN`, or a number. -/
inductive JsAngle where
  | null : JsAngle
  | nan : JsAngle
  | val (q : ℚ) : JsAngle
deriving DecidableEq, Repr

/-- The numeric content of a non-`null` angle (`none` for `NaN`). -/
def JsAngle.toNum : JsAngle → Option ℚ
  | .null => none
  | .nan => none
  | .val q => some q

/-- JS addition: `NaN` propagates. -/
def jadd : Option ℚ → Option ℚ → Option ℚ
  | some a, some b => some (a + b)
  | _, _ => none

/-- JS subtraction: `NaN` propagates. -/
def jsub : Option ℚ → Option ℚ → Option ℚ
  | some a, some b => some (a - b)
  | _, _ => none

/-- JS multiplication: `NaN` propagates. -/
def jmul : Option ℚ → Option ℚ → Option ℚ
  | some a, some b => some (a * b)
  | _, _ => none

/-- JS division (divisor known nonzero in all uses): `NaN` propagates. -/
def jdiv : Option ℚ → Option ℚ → Option ℚ
  | some a, some b => some (a / b)
  | _, _ => none

/-- JS unary minus: `-NaN = NaN`. -/
def jneg : Option ℚ → Option ℚ
  | some a => some (-a)
  | none => none

/-- `Math.max`: returns `NaN` when either argument is `NaN`. -/
def jmax : Option ℚ → Option ℚ → Option ℚ
  | some a, some b => some (max a b)
  | _, _ => none

/-- `Math.min`: returns `NaN` when either argument is `NaN`. -/
def jmin : Option ℚ → Option ℚ → Option ℚ
  | some a, some b => some (min a b)
  | _, _ => none

/-- `clamp` from `src/utils/math.js` on a possibly-`NaN` value. -/
def jclamp (v : Option ℚ) (lo hi : ℚ) : Option ℚ :=
  jmin (jmax v (some lo)) (some hi)

/-- `normalize` from `src/utils/math.js` on a possibly-`NaN` value: the
degenerate-range check compares the two plain-number bounds. -/
def jnormalize (v : Option ℚ) (lo hi : ℚ) : Option ℚ :=
  if hi = lo then some 0 else jdiv (jsub v (some lo)) (some (hi - lo))

/-- `mapRange` from `src/utils/math.js` on a possibly-`NaN` value. -/
def jmapRange (v : Option ℚ) (lo hi a b : ℚ) : Option ℚ :=
  jadd (some a) (jmul (some (b - a)) (jnormalize v lo hi))

/-- `GyroscopeTracker.handleOrientation`: given the event's `beta` and `gamma`
fields, returns `none` when the handler returns without emitting, and
`some (x, y, z)` for the triple passed to `onUpdate` (components are
possibly-`NaN` values). -/
def GyroscopeTracker.handleOrientation (cfg : Config) (beta gamma : JsAngle) :
    Option (Option ℚ × Option ℚ × Option ℚ) :=
  if beta = JsAngle.null ∨ gamma = JsAngle.null then none
  else
    let M := cfg.gyroMaxTilt
    let betaOffset := jsub beta.toNum (some 45)
    let clampedBeta := jclamp betaOffset (-M) M
    let clampedGamma := jclamp gamma.toNum (-M) M
    let normalizedX := jmul (jmapRange clampedGamma (-M) M (-1) 1) (some cfg.gyroSensitivity)
    let normalizedY := jmul (jmapRange (jneg clampedBeta) (-M) M (-1) 1) (some cfg.gyroSensitivity)
    some (normalizedX, normalizedY, some 0)

example :
    GyroscopeTracker.handleOrientation DEFAULT_CONFIG (JsAngle.val 45) (JsAngle.val 15)
      = some (some (1/2), some 0, some 0) := by
  simp [GyroscopeTracker.handleOrientation, JsAngle.toNum, jclamp, jmapRange,
    jnormalize, jadd, jsub, jmul, jdiv, jneg, jmin, jmax, DEFAULT_CONFIG, min_def, max_def]
  norm_num

/-- C6 (counterexample): an orientation event with `beta = NaN` and
`gamma = 0` is not dropped — the handler emits an update (whose `y`
component is `NaN`). -/
theorem gyro_nan_reading_emits_update :
    GyroscopeTracker.handleOrientation DEFAULT_CONFIG JsAngle.nan (JsAngle.val 0)
        = some (some 0, none, some 0)
      ∧ GyroscopeTracker.handleOrientation DEFAULT_CONFIG JsAngle.nan (JsAngle.val 0)
        ≠ none := by
  constructor
  · simp [GyroscopeTracker.handleOrientation, JsAngle.toNum, jclamp, jmapRange,
      jnormalize, jadd, jsub, jmul, jdiv, jneg, jmin, jmax, DEFAULT_CONFIG,
      min_def, max_def]
    norm_num
  · simp [GyroscopeTracker.handleOrientation]

/-- C6 (amended): the handler emits no update exactly when `beta` or `gamma`
is `null`; `NaN` readings pass the guard and an update is emitted (with `NaN`
propagated into its components). -/
theorem gyro_null_reading_dropped (cfg : Config) (beta gamma : JsAngle) :
    GyroscopeTracker.handleOrientation cfg beta gamma = none
      ↔ beta = JsAngle.null ∨ gamma = JsAngle.null := by
  cases beta <;> cases gamma <;>
    simp [GyroscopeTracker.handleOrientation]

lemma jnormalize_val (v lo hi : ℚ) :
    jnormalize (some v) lo hi = some (MathUtils.normalize v lo hi) := by
  unfold jnormalize MathUtils.normalize
  split <;> simp [jdiv, jsub]

lemma jmapRange_val (v lo hi a b : ℚ) :
    jmapRange (some v) lo hi a b = some (mapRange v lo hi a b) := by
  simp [jmapRange, jnormalize_val, jadd, jmul, mapRange]

lemma clamp_window_mem (w M : ℚ) (hM : 0 < M) :
    -M ≤ clamp w (-M) M ∧ clamp w (-M) M ≤ M := by
  unfold MathUtils.clamp
  exact ⟨le_min (le_max_right w (-M)) (by linarith), min_le_right _ M⟩

lemma abs_mapRange_window_le (u M : ℚ) (hM : 0 < M) (h1 : -M ≤ u) (h2 : u ≤ M) :
    |mapRange u (-M) M (-1) 1| ≤ 1 := by
  have hne : M ≠ -M := by intro h; linarith
  unfold MathUtils.mapRange MathUtils.normalize
  rw [if_neg hne]
  have hq0 : 0 ≤ (u - -M) / (M - -M) := div_nonneg (by linarith) (by linarith)
  have hq1 : (u - -M) / (M - -M) ≤ 1 := (div_le_one (by linarith)).mpr (by linarith)
  rw [abs_le]
  constructor <;> nlinarith

/-- C9: for an orientation event with numeric `beta` and `gamma`, the emitted
update is `some (x, y, 0)` where `x` is the clamped `gamma` and `y` the negated
clamped `betaOffset = beta - 45`, each mapped linearly over the tilt window
`[-gyroMaxTilt, gyroMaxTilt]` to `[-1, 1]` and scaled by `gyroSensitivity`;
consequently `|x|` and `|y|` are at most `gyroSensitivity` and `z = 0`. -/
theorem gyro_orientation_mapping (cfg : Config) (beta gamma : ℚ)
    (hM : 0 < cfg.gyroMaxTilt) (hs : 0 ≤ cfg.gyroSensitivity) :
    ∃ x y : ℚ,
      GyroscopeTracker.handleOrientation cfg (JsAngle.val beta) (JsAngle.val gamma)
          = some (some x, some y, some 0)
        ∧ x = mapRange (clamp gamma (-cfg.gyroMaxTilt) cfg.gyroMaxTilt)
                (-cfg.gyroMaxTilt) cfg.gyroMaxTilt (-1) 1 * cfg.gyroSensitivity
        ∧ y = mapRange (-(clamp (beta - 45) (-cfg.gyroMaxTilt) cfg.gyroMaxTilt))
                (-cfg.gyroMaxTilt) cfg.gyroMaxTilt (-1) 1 * cfg.gyroSensitivity
        ∧ |x| ≤ cfg.gyroSensitivity ∧ |y| ≤ cfg.gyroSensitivity := by
  set M := cfg.gyroMaxTilt with hMdef
  set s := cfg.gyroSensitivity with hsdef
  have hx : ∀ u : ℚ, -M ≤ u → u ≤ M →
      |mapRange u (-M) M (-1) 1 * s| ≤ s := by
    intro u h1 h2
    rw [abs_mul, abs_of_nonneg hs]
    calc |mapRange u (-M) M (-1) 1| * s ≤ 1 * s := by
          exact mul_le_mul_of_nonneg_right (abs_mapRange_window_le u M hM h1 h2) hs
      _ = s := one_mul s
  obtain ⟨hg1, hg2⟩ := clamp_window_mem gamma M hM
  obtain ⟨hb1, hb2⟩ := clamp_window_mem (beta - 45) M hM
  refine ⟨_, _, ?_, rfl, rfl, hx _ hg1 hg2, hx _ (by linarith) (by linarith)⟩
  simp only [GyroscopeTracker.handleOrientation, JsAngle.toNum, jsub, jclamp,
    jmin, jmax, jneg, jmapRange_val, jmul]
  rw [if_neg (by simp)]
  rfl

/-- Witness for `gyro_orientation_mapping` at the default configuration with
`beta = 50`, `gamma = 10`. -/
theorem gyro_orientation_mapping_witness :
    ∃ x y : ℚ,
      GyroscopeTracker.handleOrientation DEFAULT_CONFIG (JsAngle.val 50) (JsAngle.val 10)
          = some (some x, some y, some 0)
        ∧ x = mapRange (clamp 10 (-DEFAULT_CONFIG.gyroMaxTilt) DEFAULT_CONFIG.gyroMaxTilt)
                (-DEFAULT_CONFIG.gyroMaxTilt) DEFAULT_CONFIG.gyroMaxTilt (-1) 1
                * DEFAULT_CONFIG.gyroSensitivity
        ∧ y = mapRange (-(clamp (50 - 45) (-DEFAULT_CONFIG.gyroMaxTilt) DEFAULT_CONFIG.gyroMaxTilt))
                (-DEFAULT_CONFIG.gyroMaxTilt) DEFAULT_CONFIG.gyroMaxTilt (-1) 1
                * DEFAULT_CONFIG.gyroSensitivity
        ∧ |x| ≤ DEFAULT_CONFIG.gyroSensitivity ∧ |y| ≤ DEFAULT_CONFIG.gyroSensitivity :=
  gyro_orientation_mapping DEFAULT_CONFIG 50 10
    (by norm_num [DEFAULT_CONFIG]) (by norm_num [DEFAULT_CONFIG])

/- Embedding of `CameraController` (`src/core/camera.js`).  `update` raises
`1 - smoothingFactor` to the real exponent `deltaTime / 16.67`, so the camera
state lives over the reals. -/

noncomputable section

/-- Mutable fields of `CameraController`: the rest base position, the smoothed
current offset, the tracking target offset, and the camera's world position. -/
@[ext]
structure CameraState where
  basePosition : Vec3 ℝ
  currentOffset : Vec3 ℝ
  targetOffset : Vec3 ℝ
  position : Vec3 ℝ

/-- The `CameraController` constructor: camera at `(0, 0, cameraDistance)`,
both offsets zero. -/
def CameraController.init (cfg : Config) : CameraState where
  basePosition := ⟨0, 0, (cfg.cameraDistance : ℝ)⟩
  currentOffset := ⟨0, 0, 0⟩
  targetOffset := ⟨0, 0, 0⟩
  position := ⟨0, 0, (cfg.cameraDistance : ℝ)⟩

/-- `CameraController.setTargetOffset(x, y, z)`: applies `trackingSensitivity`
and clamps each axis to `±maxCameraOffset`. -/
def CameraController.setTargetOffset (cfg : Config) (st : CameraState) (x y z : ℝ) :
    CameraState :=
  let mx : ℝ := (cfg.maxCameraOffset.x : ℝ)
  let my : ℝ := (cfg.maxCameraOffset.y : ℝ)
  let mz : ℝ := (cfg.maxCameraOffset.z : ℝ)
  let sens : ℝ := (cfg.trackingSensitivity : ℝ)
  { st with targetOffset :=
      ⟨clamp (x * sens * mx) (-mx) mx,
       clamp (y * sens * my) (-my) my,
       clamp (z * sens * mz) (-mz) mz⟩ }

/-- `CameraController.update(deltaTime)`: frame-rate-independent smoothing with
`t = 1 - (1 - smoothingFactor)^(deltaTime/16.67)`, then per-axis `lerp` of the
current offset toward the target and repositioning of the camera at
`basePosition + currentOffset`. -/
def CameraController.update (cfg : Config) (st : CameraState) (deltaTime : ℝ) :
    CameraState :=
  let smoothing : ℝ := (cfg.smoothingFactor : ℝ)
  let t : ℝ := 1 - (1 - smoothing) ^ (deltaTime / (1667/100 : ℝ))
  let cx := lerp st.currentOffset.x st.targetOffset.x t
  let cy := lerp st.currentOffset.y st.targetOffset.y t
  let cz := lerp st.currentOffset.z st.targetOffset.z t
  { st with
      currentOffset := ⟨cx, cy, cz⟩,
      position := ⟨st.basePosition.x + cx, st.basePosition.y + cy, st.basePosition.z + cz⟩ }

end

lemma lerp_rpow_comp (a k c T d1 d2 : ℝ) (ha : 0 < a) :
    lerp (lerp c T (1 - a ^ (d1 / k))) T (1 - a ^ (d2 / k))
      = lerp c T (1 - a ^ ((d1 + d2) / k)) := by
  have h : a ^ ((d1 + d2) / k) = a ^ (d1 / k) * a ^ (d2 / k) := by
    rw [add_div, Real.rpow_add ha]
  simp only [MathUtils.lerp, h]
  ring

lemma camera_update_comp (cfg : Config) (st : CameraState) (d1 d2 : ℝ)
    (hs1 : (cfg.smoothingFactor : ℝ) < 1) :
    CameraController.update cfg (CameraController.update cfg st d1) d2
      = CameraController.update cfg st (d1 + d2) := by
  have ha : (0 : ℝ) < 1 - (cfg.smoothingFactor : ℝ) := by linarith
  obtain ⟨bp, co, tg, pos⟩ := st
  simp only [CameraController.update]
  refine CameraState.ext rfl ?_ rfl ?_ <;>
    refine Vec3.ext ?_ ?_ ?_ <;>
    simp only [lerp_rpow_comp _ _ _ _ _ _ ha]

lemma camera_foldl_update (cfg : Config) (hs1 : (cfg.smoothingFactor : ℝ) < 1) :
    ∀ (dts : List ℝ) (st : CameraState) (d0 : ℝ),
      dts.foldl (CameraController.update cfg) (CameraController.update cfg st d0)
        = CameraController.update cfg st (d0 + dts.sum)
  | [], st, d0 => by simp
  | d :: ds, st, d0 => by
    rw [List.foldl_cons, camera_update_comp cfg st d0 d hs1,
      camera_foldl_update cfg hs1 ds st (d0 + d), List.sum_cons]
    ring_nf

/-- C4: with smoothing factor `s` in `(0,1)`, applying the camera update over a
sequence of positive frame times is identical to one update over their sum;
equivalently, composing updates for `d1` then `d2` equals one update for
`d1 + d2`. -/
theorem camera_smoothing_framerate_independent (cfg : Config) (st : CameraState)
    (hs0 : 0 < (cfg.smoothingFactor : ℝ)) (hs1 : (cfg.smoothingFactor : ℝ) < 1)
    (dts : List ℝ) (hne : dts ≠ []) (hpos : ∀ d ∈ dts, 0 < d) :
    dts.foldl (CameraController.update cfg) st
        = CameraController.update cfg st dts.sum
      ∧ ∀ d1 d2 : ℝ,
          CameraController.update cfg (CameraController.update cfg st d1) d2
            = CameraController.update cfg st (d1 + d2) := by
  constructor
  · match dts, hne with
    | d :: ds, _ =>
      rw [List.foldl_cons, camera_foldl_update cfg hs1 ds st d, List.sum_cons]
  · exact fun d1 d2 => camera_update_comp cfg st d1 d2 hs1

/-- Witness for `camera_smoothing_framerate_independent`: default config,
initial camera state, frame times `10` and `12.5` ms. -/
theorem camera_smoothing_framerate_independent_witness :
    ([10, 25/2] : List ℝ).foldl
        (CameraController.update DEFAULT_CONFIG)
        (CameraController.init DEFAULT_CONFIG)
        = CameraController.update DEFAULT_CONFIG
            (CameraController.init DEFAULT_CONFIG) ([10, 25/2] : List ℝ).sum
      ∧ ∀ d1 d2 : ℝ,
          CameraController.update DEFAULT_CONFIG
              (CameraController.update DEFAULT_CONFIG
                (CameraController.init DEFAULT_CONFIG) d1) d2
            = CameraController.update DEFAULT_CONFIG
                (CameraController.init DEFAULT_CONFIG) (d1 + d2) :=
  camera_smoothing_framerate_independent DEFAULT_CONFIG
    (CameraController.init DEFAULT_CONFIG)
    (by norm_num [DEFAULT_CONFIG]) (by norm_num [DEFAULT_CONFIG])
    [10, 25/2] (by simp) (by norm_num)

/- Estimator `stop()` methods and their externally visible cleanup effects. -/

/-- An externally visible cleanup side effect of an estimator `stop()` call:
cancelling the detection timer, stopping the media-stream tracks, removing the
hidden video or the preview container from the DOM, or an effective
`removeEventListener`. -/
inductive CleanupAction where
  | clearTimer : CleanupAction
  | stopTracks : CleanupAction
  | removeVideo : CleanupAction
  | removePreview : CleanupAction
  | removeListener : CleanupAction
deriving DecidableEq, Repr

/-- `FaceTracker.stop`: sets `isRunning := false`, clears the detection timer
if one is scheduled, stops and detaches the media stream if present, and
removes the video and preview elements if still attached; each cleanup effect
is recorded only when its guard fires. -/
def FaceTracker.stop (st : FaceTrackerState) : FaceTrackerState × List CleanupAction :=
  ({ st with
      isRunning := false,
      detectionInterval := false,
      video := st.video.map (fun _ => ⟨false, false⟩),
      previewInDom := false },
   (if st.detectionInterval then [CleanupAction.clearTimer] else [])
     ++ (match st.video with
         | some v => if v.srcObject then [CleanupAction.stopTracks] else []
         | none => [])
     ++ (match st.video with
         | some v => if v.inDom then [CleanupAction.removeVideo] else []
         | none => [])
     ++ (if st.previewInDom then [CleanupAction.removePreview] else []))

/-- Mutable fields of `GyroscopeTracker` relevant to `stop()`: whether tracking
runs and whether the `deviceorientation` listener is attached (so that the
unconditional `removeEventListener` call has an effect). -/
structure GyroscopeTrackerState where
  isRunning : Bool
  hasPermission : Bool
  listenerAttached : Bool
deriving DecidableEq, Repr

/-- `GyroscopeTracker.stop`: removes the orientation listener (with effect only
if one is attached) and sets `isRunning := false`. -/
def GyroscopeTracker.stop (st : GyroscopeTrackerState) :
    GyroscopeTrackerState × List CleanupAction :=
  ({ st with listenerAttached := false, isRunning := false },
   if st.listenerAttached then [CleanupAction.removeListener] else [])

/-- Mutable fields of `FallbackAnimator` (`src/tracking/fallback.js`). -/
structure FallbackAnimatorState where
  isRunning : Bool
  startTime : ℚ
deriving DecidableEq, Repr

/-- `FallbackAnimator.stop`: sets `isRunning := false`; no other effect. -/
def FallbackAnimator.stop (st : FallbackAnimatorState) : FallbackAnimatorState :=
  { st with isRunning := false }

/-- C8: stopping an estimator twice is idempotent — the second `stop()` leaves
the state of the first unchanged and performs no cleanup side effect (no second
track-stop, timer clear, DOM removal, or effective listener removal). -/
theorem estimator_stop_idempotent (f : FaceTrackerState) (g : GyroscopeTrackerState)
    (b : FallbackAnimatorState) :
    FaceTracker.stop (FaceTracker.stop f).1
        = ((FaceTracker.stop f).1, ([] : List CleanupAction))
      ∧ GyroscopeTracker.stop (GyroscopeTracker.stop g).1
        = ((GyroscopeTracker.stop g).1, ([] : List CleanupAction))
      ∧ FallbackAnimator.stop (FallbackAnimator.stop b)
        = FallbackAnimator.stop b := by
  refine ⟨?_, rfl, rfl⟩
  obtain ⟨r1, r2, r3, v, r5, r6, p⟩ := f
  cases v <;> simp [FaceTracker.stop]

/-- An offset lies within the `±maxCameraOffset` box of a configuration. -/
def inBox (cfg : Config) (v : Vec3 ℝ) : Prop :=
  |v.x| ≤ (cfg.maxCameraOffset.x : ℝ)
    ∧ |v.y| ≤ (cfg.maxCameraOffset.y : ℝ)
    ∧ |v.z| ≤ (cfg.maxCameraOffset.z : ℝ)

lemma abs_clamp_window_le (v m : ℝ) (hm : 0 ≤ m) : |clamp v (-m) m| ≤ m := by
  unfold MathUtils.clamp
  rw [abs_le]
  exact ⟨le_min (le_max_right v (-m)) (by linarith), min_le_right _ m⟩

lemma abs_lerp_le (c T t m : ℝ) (hc : |c| ≤ m) (hT : |T| ≤ m)
    (ht0 : 0 ≤ t) (ht1 : t ≤ 1) : |lerp c T t| ≤ m := by
  unfold MathUtils.lerp
  rw [abs_le] at *
  obtain ⟨hc1, hc2⟩ := hc
  obtain ⟨hT1, hT2⟩ := hT
  constructor <;> nlinarith

lemma smoothing_t_mem (s e : ℝ) (h0 : 0 < s) (h1 : s < 1) (he : 0 ≤ e) :
    0 ≤ 1 - (1 - s) ^ e ∧ 1 - (1 - s) ^ e ≤ 1 := by
  constructor
  · have := Real.rpow_le_one (x := 1 - s) (by linarith) (by linarith) he
    linarith
  · have := Real.rpow_nonneg (x := 1 - s) (by linarith) e
    linarith

/-- C10: `setTargetOffset` confines every axis of the target offset to
`±maxCameraOffset` for arbitrary inputs, and whenever current and target
offsets lie in that box, `update` with any `dt ≥ 0` and smoothing factor in
`(0,1)` keeps the current offset in the box and the camera position within
`basePosition ± maxCameraOffset`. -/
theorem camera_offset_confinement (cfg : Config) (st : CameraState) (x y z dt : ℝ)
    (hmx : 0 ≤ (cfg.maxCameraOffset.x : ℝ))
    (hmy : 0 ≤ (cfg.maxCameraOffset.y : ℝ))
    (hmz : 0 ≤ (cfg.maxCameraOffset.z : ℝ))
    (hs0 : 0 < (cfg.smoothingFactor : ℝ)) (hs1 : (cfg.smoothingFactor : ℝ) < 1)
    (hdt : 0 ≤ dt) :
    inBox cfg (CameraController.setTargetOffset cfg st x y z).targetOffset
      ∧ (inBox cfg st.currentOffset → inBox cfg st.targetOffset →
          inBox cfg (CameraController.update cfg st dt).currentOffset
            ∧ |(CameraController.update cfg st dt).position.x - st.basePosition.x|
                ≤ (cfg.maxCameraOffset.x : ℝ)
            ∧ |(CameraController.update cfg st dt).position.y - st.basePosition.y|
                ≤ (cfg.maxCameraOffset.y : ℝ)
            ∧ |(CameraController.update cfg st dt).position.z - st.basePosition.z|
                ≤ (cfg.maxCameraOffset.z : ℝ)) := by
  constructor
  · exact ⟨abs_clamp_window_le _ _ hmx, abs_clamp_window_le _ _ hmy,
      abs_clamp_window_le _ _ hmz⟩
  · intro hcur htgt
    obtain ⟨ht0, ht1⟩ :=
      smoothing_t_mem (cfg.smoothingFactor : ℝ) (dt / (1667/100 : ℝ)) hs0 hs1
        (by positivity)
    have hx := abs_lerp_le st.currentOffset.x st.targetOffset.x _ _
      hcur.1 htgt.1 ht0 ht1
    have hy := abs_lerp_le st.currentOffset.y st.targetOffset.y _ _
      hcur.2.1 htgt.2.1 ht0 ht1
    have hz := abs_lerp_le st.currentOffset.z st.targetOffset.z _ _
      hcur.2.2 htgt.2.2 ht0 ht1
    refine ⟨⟨hx, hy, hz⟩, ?_, ?_, ?_⟩ <;>
      · simp only [CameraController.update, inBox, add_sub_cancel_left]
        first
          | exact hx
          | exact hy
          | exact hz

/-- Witness for `camera_offset_confinement`: default config, camera at rest,
a wildly out-of-range tracking input `(5, -7, 100)`, and `dt = 33` ms. -/
theorem camera_offset_confinement_witness :
    inBox DEFAULT_CONFIG
        (CameraController.setTargetOffset DEFAULT_CONFIG
          (CameraController.init DEFAULT_CONFIG) 5 (-7) 100).targetOffset
      ∧ (inBox DEFAULT_CONFIG (CameraController.init DEFAULT_CONFIG).currentOffset →
          inBox DEFAULT_CONFIG (CameraController.init DEFAULT_CONFIG).targetOffset →
          inBox DEFAULT_CONFIG
              (CameraController.update DEFAULT_CONFIG
                (CameraController.init DEFAULT_CONFIG) 33).currentOffset
            ∧ |(CameraController.update DEFAULT_CONFIG
                  (CameraController.init DEFAULT_CONFIG) 33).position.x
                - (CameraController.init DEFAULT_CONFIG).basePosition.x|
                ≤ (DEFAULT_CONFIG.maxCameraOffset.x : ℝ)
            ∧ |(CameraController.update DEFAULT_CONFIG
                  (CameraController.init DEFAULT_CONFIG) 33).position.y
                - (CameraController.init DEFAULT_CONFIG).basePosition.y|
                ≤ (DEFAULT_CONFIG.maxCameraOffset.y : ℝ)
            ∧ |(CameraController.update DEFAULT_CONFIG
                  (CameraController.init DEFAULT_CONFIG) 33).position.z
                - (CameraController.init DEFAULT_CONFIG).basePosition.z|
                ≤ (DEFAULT_CONFIG.maxCameraOffset.z : ℝ)) :=
  camera_offset_confinement DEFAULT_CONFIG (CameraController.init DEFAULT_CONFIG)
    5 (-7) 100 33
    (by norm_num [DEFAULT_CONFIG]) (by norm_num [DEFAULT_CONFIG])
    (by norm_num [DEFAULT_CONFIG]) (by norm_num [DEFAULT_CONFIG])
    (by norm_num [DEFAULT_CONFIG]) (by norm_num)

/- Embedding of the tracking arbitration in `ImmersiveBackground`
(`src/main.js`).  Each entry point that can change which estimator runs is an
event: `setupTracking` (with the device capabilities and, on the
no-permission mobile path, the outcome of the awaited gyroscope start), the
`setTimeout` callback that attempts the face tracker on desktop, the
permission-button click handler, the reduced-motion media-query listener, and
`switchToFallback`.  Each event runs to completion on the single event queue,
and emits the ordered list of observable actions it performs. -/

/-- The three estimators the arbitrator switches between. -/
inductive Tracker where
  | face : Tracker
  | gyroscope : Tracker
  | fallback : Tracker
deriving DecidableEq, Repr

/-- Device capabilities probed at setup. -/
structure Caps where
  reducedMotion : Bool
  isMobile : Bool
  hasGyroscope : Bool
  gyroNeedsPermission : Bool
  hasCameraAccess : Bool
deriving DecidableEq, Repr

/-- Observable actions of an arbitrator transition: an estimator successfully
starting, an estimator's `stop()` being invoked, a camera (getUserMedia)
request, and showing the motion-permission prompt. -/
inductive ArbAction where
  | startE (t : Tracker) : ArbAction
  | stopE (t : Tracker) : ArbAction
  | cameraRequest : ArbAction
  | permissionPrompt : ArbAction
deriving DecidableEq, Repr

/-- An arbitrator transition. `setup` carries the capabilities and the outcome
of a synchronously awaited gyroscope start; `faceResult` is the arrival of the
delayed face-tracker start result; `permissionClick` is a click on the motion
permission button with the permission and start outcomes; `motionChange` is a
`prefers-reduced-motion` change event; `switchFallback` is a direct
`switchToFallback()` call. -/
inductive ArbEvent where
  | setup (caps : Caps) (startOutcome : Bool) : ArbEvent
  | faceResult (started : Bool) : ArbEvent
  | permissionClick (granted started : Bool) : ArbEvent
  | motionChange (reduced : Bool) : ArbEvent
  | switchFallback : ArbEvent
deriving DecidableEq, Repr

/-- The arbitrator-relevant fields of `ImmersiveBackground`: which trackers
have been constructed, which report `isRunning`, whether a delayed face start
or a permission prompt is outstanding, the `activeTracker` tag, and the
mutable fallback speed/radius configuration. -/
structure ArbState where
  started : Bool
  reducedMotion : Bool
  faceCreated : Bool
  faceRunning : Bool
  facePending : Bool
  gyroCreated : Bool
  gyroRunning : Bool
  permissionShown : Bool
  fallbackRunning : Bool
  activeTracker : Option Tracker
  fallbackSpeed : ℚ
  fallbackRadius : ℚ × ℚ
deriving DecidableEq, Repr

/-- The state of a freshly constructed `ImmersiveBackground` before
`setupTracking`, with the default fallback animation configuration. -/
def arbInit : ArbState where
  started := false
  reducedMotion := false
  faceCreated := false
  faceRunning := false
  facePending := false
  gyroCreated := false
  gyroRunning := false
  permissionShown := false
  fallbackRunning := false
  activeTracker := none
  fallbackSpeed := DEFAULT_CONFIG.fallbackAnimationSpeed
  fallbackRadius := DEFAULT_CONFIG.fallbackAnimationRadius

/-- `ImmersiveBackground.switchToFallback`: stop the face and gyroscope
trackers if they were constructed, then start the fallback animator. -/
def switchToFallbackA (s : ArbState) : ArbState × List ArbAction :=
  ({ s with
      faceRunning := false, gyroRunning := false,
      fallbackRunning := true, activeTracker := some Tracker.fallback },
   (if s.faceCreated then [ArbAction.stopE Tracker.face] else [])
     ++ (if s.gyroCreated then [ArbAction.stopE Tracker.gyroscope] else [])
     ++ [ArbAction.startE Tracker.fallback])

/-- One arbitrator transition: the new state together with the ordered list of
observable actions the handler performs. -/
def arbStepA (s : ArbState) : ArbEvent → ArbState × List ArbAction
  | ArbEvent.setup caps o =>
    if s.started then (s, [])
    else
      let s1 := { s with started := true, reducedMotion := caps.reducedMotion }
      if caps.reducedMotion then
        ({ s1 with
            fallbackSpeed := s1.fallbackSpeed * (3/10),
            fallbackRadius := (1/10, 1/20),
            fallbackRunning := true, activeTracker := some Tracker.fallback },
         [ArbAction.startE Tracker.fallback])
      else if caps.isMobile then
        if !caps.hasGyroscope then
          ({ s1 with fallbackRunning := true, activeTracker := some Tracker.fallback },
           [ArbAction.startE Tracker.fallback])
        else
          let s2 := { s1 with gyroCreated := true }
          if caps.gyroNeedsPermission then
            ({ s2 with
                permissionShown := true,
                fallbackRunning := true, activeTracker := some Tracker.fallback },
             [ArbAction.permissionPrompt, ArbAction.startE Tracker.fallback])
          else if o then
            ({ s2 with gyroRunning := true, activeTracker := some Tracker.gyroscope },
             [ArbAction.startE Tracker.gyroscope])
          else
            ({ s2 with fallbackRunning := true, activeTracker := some Tracker.fallback },
             [ArbAction.startE Tracker.fallback])
      else
        if !caps.hasCameraAccess then
          ({ s1 with fallbackRunning := true, activeTracker := some Tracker.fallback },
           [ArbAction.startE Tracker.fallback])
        else
          ({ s1 with
              faceCreated := true, facePending := true,
              fallbackRunning := true, activeTracker := some Tracker.fallback },
           [ArbAction.startE Tracker.fallback])
  | ArbEvent.faceResult ok =>
    if s.facePending then
      if ok then
        ({ s with
            facePending := false, faceRunning := true,
            fallbackRunning := false, activeTracker := some Tracker.face },
         [ArbAction.cameraRequest, ArbAction.startE Tracker.face, ArbAction.stopE Tracker.fallback])
      else
        ({ s with facePending := false }, [ArbAction.cameraRequest])
    else (s, [])
  | ArbEvent.permissionClick granted ok =>
    if s.permissionShown then
      let s1 := { s with permissionShown := false }
      if granted && s.gyroCreated then
        if ok then
          ({ s1 with
              gyroRunning := true, fallbackRunning := false,
              activeTracker := some Tracker.gyroscope },
           [ArbAction.startE Tracker.gyroscope, ArbAction.stopE Tracker.fallback])
        else (s1, [])
      else (s1, [])
    else (s, [])
  | ArbEvent.motionChange r =>
    if s.started then
      let s1 := { s with reducedMotion := r }
      if r then
        let p := switchToFallbackA s1
        ({ p.1 with fallbackSpeed := p.1.fallbackSpeed * (3/10) }, p.2)
      else (s1, [])
    else (s, [])
  | ArbEvent.switchFallback =>
    if s.started then switchToFallbackA s else (s, [])

/-- The state after one arbitrator transition. -/
def arbStep (s : ArbState) (e : ArbEvent) : ArbState :=
  (arbStepA s e).1

/-- The state after a sequence of arbitrator transitions. -/
def arbRun (s : ArbState) (evs : List ArbEvent) : ArbState :=
  evs.foldl arbStep s

/-- The concatenated action trace of a sequence of arbitrator transitions. -/
def arbTrace : ArbState → List ArbEvent → List ArbAction
  | _, [] => []
  | s, e :: evs => (arbStepA s e).2 ++ arbTrace (arbStep s e) evs

/-- Exactly one of the three estimators reports `isRunning` (the liveness
query `isActive()` of each tracker class returns this flag). -/
def oneRunning (s : ArbState) : Prop :=
  (s.faceRunning = true ∧ s.gyroRunning = false ∧ s.fallbackRunning = false)
    ∨ (s.faceRunning = false ∧ s.gyroRunning = true ∧ s.fallbackRunning = false)
    ∨ (s.faceRunning = false ∧ s.gyroRunning = false ∧ s.fallbackRunning = true)

/-- Inductive invariant of the arbitrator after setup. -/
def ArbInv (s : ArbState) : Prop :=
  oneRunning s
    ∧ (s.facePending = true → s.fallbackRunning = true ∧ s.permissionShown = false)
    ∧ (s.permissionShown = true → s.fallbackRunning = true ∧ s.gyroCreated = true)
    ∧ s.started = true

lemma arbInv_setup (caps : Caps) (o : Bool) :
    ArbInv (arbStep arbInit (ArbEvent.setup caps o)) := by
  obtain ⟨rm, mob, gy, perm, cam⟩ := caps
  cases rm <;> cases mob <;> cases gy <;> cases perm <;> cases cam <;> cases o <;>
    simp [arbStep, arbStepA, arbInit, ArbInv, oneRunning]

lemma arbInv_step (s : ArbState) (e : ArbEvent) (h : ArbInv s) :
    ArbInv (arbStep s e) := by
  obtain ⟨hone, hpend, hshown, hstart⟩ := h
  obtain ⟨st0, rm0, fc, fr, fp, gc, gr, ps, fb, atk, sp, rad⟩ := s
  simp only [ArbInv, oneRunning] at *
  subst hstart
  cases e with
  | setup caps o =>
    simp [arbStep, arbStepA]
    tauto
  | faceResult ok =>
    cases fp
    · simp [arbStep, arbStepA]
      tauto
    · obtain ⟨hfb, hps⟩ := hpend rfl
      subst hfb hps
      cases ok <;> simp_all [arbStep, arbStepA]
  | permissionClick granted ok =>
    cases ps
    · simp [arbStep, arbStepA]
      tauto
    · obtain ⟨hfb, hgc⟩ := hshown rfl
      subst hfb hgc
      have hfp : fp = false := by
        cases fp
        · rfl
        · exact absurd (hpend rfl).2 (by simp)
      subst hfp
      cases granted <;> cases ok <;> simp_all [arbStep, arbStepA]
  | motionChange r =>
    cases r <;>
      simp_all [arbStep, arbStepA, switchToFallbackA]
  | switchFallback =>
    simp_all [arbStep, arbStepA, switchToFallbackA]

lemma arbInv_run (s : ArbState) (evs : List ArbEvent) (h : ArbInv s) :
    ArbInv (arbRun s evs) := by
  induction evs generalizing s with
  | nil => exact h
  | cons e evs ih => exact ih (arbStep s e) (arbInv_step s e h)

/-- C1 (amended): after any sequence of arbitrator transitions beginning with
setup, exactly one estimator among face, gyroscope, and fallback reports
running via its liveness query; the previously active estimator is stopped
within the same atomic transition in which the next one is started (on
upgrades from the interim fallback the new estimator is started just before
the fallback is stopped). -/
theorem arbitrator_exactly_one_running (caps : Caps) (o : Bool) (evs : List ArbEvent) :
    oneRunning (arbRun (arbStep arbInit (ArbEvent.setup caps o)) evs) :=
  (arbInv_run (arbStep arbInit (ArbEvent.setup caps o)) evs (arbInv_setup caps o)).1

/-- C1 (counterexample): in the desktop upgrade transition out of the interim
fallback, the face estimator is started before the fallback is stopped — the
action trace of the successful face-start transition is
`[cameraRequest, startE face, stopE fallback]` while fallback was the running
active estimator, so the arbitrator does not always stop the previously
active estimator before starting the next. -/
theorem arbitrator_upgrade_starts_before_stop :
    (arbStep arbInit (ArbEvent.setup ⟨false, false, false, false, true⟩ true)).fallbackRunning
        = true
      ∧ (arbStep arbInit (ArbEvent.setup ⟨false, false, false, false, true⟩ true)).activeTracker
        = some Tracker.fallback
      ∧ (arbStepA (arbStep arbInit (ArbEvent.setup ⟨false, false, false, false, true⟩ true))
            (ArbEvent.faceResult true)).2
        = [ArbAction.cameraRequest, ArbAction.startE Tracker.face,
           ArbAction.stopE Tracker.fallback] :=
  ⟨rfl, rfl, rfl⟩

def ReducedInv (s : ArbState) : Prop :=
  s.started = true ∧ s.faceCreated = false ∧ s.gyroCreated = false
    ∧ s.faceRunning = false ∧ s.gyroRunning = false
    ∧ s.facePending = false ∧ s.permissionShown = false
    ∧ s.fallbackRunning = true ∧ s.activeTracker = some Tracker.fallback

lemma reduced_setup (caps : Caps) (o : Bool) (h : caps.reducedMotion = true) :
    ReducedInv (arbStep arbInit (ArbEvent.setup caps o))
      ∧ (arbStep arbInit (ArbEvent.setup caps o)).fallbackSpeed
          = DEFAULT_CONFIG.fallbackAnimationSpeed * (3/10)
      ∧ (arbStep arbInit (ArbEvent.setup caps o)).fallbackRadius = (1/10, 1/20)
      ∧ (arbStepA arbInit (ArbEvent.setup caps o)).2 = [ArbAction.startE Tracker.fallback] := by
  obtain ⟨rm, mob, gy, perm, cam⟩ := caps
  simp only at h
  subst h
  simp [arbStep, arbStepA, arbInit, ReducedInv]

lemma reduced_step (s : ArbState) (e : ArbEvent) (h : ReducedInv s) :
    ReducedInv (arbStep s e)
      ∧ ∀ a ∈ (arbStepA s e).2, a = ArbAction.startE Tracker.fallback := by
  obtain ⟨h1, h2, h3, h4, h5, h6, h7, h8, h9⟩ := h
  obtain ⟨st0, rm0, fc, fr, fp, gc, gr, ps, fb, atk, sp, rad⟩ := s
  simp only at h1 h2 h3 h4 h5 h6 h7 h8 h9
  subst h1 h2 h3 h4 h5 h6 h7 h8 h9
  cases e with
  | setup caps o => simp [arbStep, arbStepA, ReducedInv]
  | faceResult ok => simp [arbStep, arbStepA, ReducedInv]
  | permissionClick granted ok => simp [arbStep, arbStepA, ReducedInv]
  | motionChange r => cases r <;> simp [arbStep, arbStepA, switchToFallbackA, ReducedInv]
  | switchFallback => simp [arbStep, arbStepA, switchToFallbackA, ReducedInv]

lemma reduced_run (s : ArbState) (evs : List ArbEvent) (h : ReducedInv s) :
    ReducedInv (arbRun s evs)
      ∧ ∀ a ∈ arbTrace s evs, a = ArbAction.startE Tracker.fallback := by
  induction evs generalizing s with
  | nil => exact ⟨h, by simp [arbTrace]⟩
  | cons e evs ih =>
    obtain ⟨hstep, htr⟩ := reduced_step s e h
    obtain ⟨hrun, htr2⟩ := ih (arbStep s e) hstep
    refine ⟨hrun, ?_⟩
    intro a ha
    rw [arbTrace] at ha
    rcases List.mem_append.mp ha with ha | ha
    · exact htr a ha
    · exact htr2 a ha

/-- C5: if the reduced-motion preference is set at setup, the fallback
estimator starts immediately with reduced speed (`0.3×`) and radius
`(0.1, 0.05)`, and over any subsequent transition sequence the face and
gyroscope trackers are never created or started, no camera request is issued,
and no permission prompt is shown; the fallback remains the active running
estimator. -/
theorem reduced_motion_override (caps : Caps) (o : Bool)
    (h : caps.reducedMotion = true) (evs : List ArbEvent) :
    (arbStep arbInit (ArbEvent.setup caps o)).fallbackRunning = true
      ∧ (arbStep arbInit (ArbEvent.setup caps o)).activeTracker = some Tracker.fallback
      ∧ (arbStep arbInit (ArbEvent.setup caps o)).fallbackSpeed
          = DEFAULT_CONFIG.fallbackAnimationSpeed * (3/10)
      ∧ (arbStep arbInit (ArbEvent.setup caps o)).fallbackRadius = (1/10, 1/20)
      ∧ (arbRun (arbStep arbInit (ArbEvent.setup caps o)) evs).faceCreated = false
      ∧ (arbRun (arbStep arbInit (ArbEvent.setup caps o)) evs).gyroCreated = false
      ∧ (arbRun (arbStep arbInit (ArbEvent.setup caps o)) evs).faceRunning = false
      ∧ (arbRun (arbStep arbInit (ArbEvent.setup caps o)) evs).gyroRunning = false
      ∧ (arbRun (arbStep arbInit (ArbEvent.setup caps o)) evs).fallbackRunning = true
      ∧ (arbRun (arbStep arbInit (ArbEvent.setup caps o)) evs).activeTracker
          = some Tracker.fallback
      ∧ ArbAction.cameraRequest ∉ arbTrace arbInit (ArbEvent.setup caps o :: evs)
      ∧ ArbAction.permissionPrompt ∉ arbTrace arbInit (ArbEvent.setup caps o :: evs)
      ∧ ArbAction.startE Tracker.face ∉ arbTrace arbInit (ArbEvent.setup caps o :: evs)
      ∧ ArbAction.startE Tracker.gyroscope ∉ arbTrace arbInit (ArbEvent.setup caps o :: evs) := by
  obtain ⟨hs1, hsp, hrad, htr0⟩ := reduced_setup caps o h
  obtain ⟨hrun, htr⟩ := reduced_run (arbStep arbInit (ArbEvent.setup caps o)) evs hs1
  have hall : ∀ a ∈ arbTrace arbInit (ArbEvent.setup caps o :: evs),
      a = ArbAction.startE Tracker.fallback := by
    intro a ha
    rw [arbTrace] at ha
    rcases List.mem_append.mp ha with ha | ha
    · rw [htr0] at ha
      simpa using ha
    · exact htr a ha
  refine ⟨hs1.2.2.2.2.2.2.2.1, hs1.2.2.2.2.2.2.2.2, hsp, hrad,
    hrun.2.1, hrun.2.2.1, hrun.2.2.2.1, hrun.2.2.2.2.1,
    hrun.2.2.2.2.2.2.2.1, hrun.2.2.2.2.2.2.2.2, ?_, ?_, ?_, ?_⟩ <;>
    · intro hmem
      have := hall _ hmem
      simp at this

/-- Witness for `reduced_motion_override` with reduced-motion capabilities and
a concrete follow-up event sequence. -/
theorem reduced_motion_override_witness :
    (arbStep arbInit (ArbEvent.setup ⟨true, false, false, false, true⟩ false)).fallbackRunning
        = true
      ∧ (arbStep arbInit
            (ArbEvent.setup ⟨true, false, false, false, true⟩ false)).activeTracker
          = some Tracker.fallback
      ∧ (arbStep arbInit
            (ArbEvent.setup ⟨true, false, false, false, true⟩ false)).fallbackSpeed
          = DEFAULT_CONFIG.fallbackAnimationSpeed * (3/10)
      ∧ (arbStep arbInit
            (ArbEvent.setup ⟨true, false, false, false, true⟩ false)).fallbackRadius
          = (1/10, 1/20)
      ∧ (arbRun (arbStep arbInit (ArbEvent.setup ⟨true, false, false, false, true⟩ false))
            [ArbEvent.faceResult true, ArbEvent.motionChange false]).faceCreated = false
      ∧ (arbRun (arbStep arbInit (ArbEvent.setup ⟨true, false, false, false, true⟩ false))
            [ArbEvent.faceResult true, ArbEvent.motionChange false]).gyroCreated = false
      ∧ (arbRun (arbStep arbInit (ArbEvent.setup ⟨true, false, false, false, true⟩ false))
            [ArbEvent.faceResult true, ArbEvent.motionChange false]).faceRunning = false
      ∧ (arbRun (arbStep arbInit (ArbEvent.setup ⟨true, false, false, false, true⟩ false))
            [ArbEvent.faceResult true, ArbEvent.motionChange false]).gyroRunning = false
      ∧ (arbRun (arbStep arbInit (ArbEvent.setup ⟨true, false, false, false, true⟩ false))
            [ArbEvent.faceResult true, ArbEvent.motionChange false]).fallbackRunning = true
      ∧ (arbRun (arbStep arbInit (ArbEvent.setup ⟨true, false, false, false, true⟩ false))
            [ArbEvent.faceResult true, ArbEvent.motionChange false]).activeTracker
          = some Tracker.fallback
      ∧ ArbAction.cameraRequest
          ∉ arbTrace arbInit (ArbEvent.setup ⟨true, false, false, false, true⟩ false
              :: [ArbEvent.faceResult true, ArbEvent.motionChange false])
      ∧ ArbAction.permissionPrompt
          ∉ arbTrace arbInit (ArbEvent.setup ⟨true, false, false, false, true⟩ false
              :: [ArbEvent.faceResult true, ArbEvent.motionChange false])
      ∧ ArbAction.startE Tracker.face
          ∉ arbTrace arbInit (ArbEvent.setup ⟨true, false, false, false, true⟩ false
              :: [ArbEvent.faceResult true, ArbEvent.motionChange false])
      ∧ ArbAction.startE Tracker.gyroscope
          ∉ arbTrace arbInit (ArbEvent.setup ⟨true, false, false, false, true⟩ false
              :: [ArbEvent.faceResult true, ArbEvent.motionChange false]) :=
  reduced_motion_override ⟨true, false, false, false, true⟩ false rfl
    [ArbEvent.faceResult true, ArbEvent.motionChange false]
